import Mathlib

/-!
Verification of the Vault AWS IAM authentication helper (src/lib.rs).

The development shallowly embeds the single source file of the crate
together with the behaviour of the library calls it makes:

* the request-signing library type SignedRequest with its add_header,
  remove_header, set_payload, set_content_type and sign operations
  (AWS signature version 4: a deterministic HMAC-SHA256 chain);
* serde_urlencoded serialization of the sorted parameter map;
* base64 encoding (standard alphabet, with padding) and its decoder;
* UTF-8 encoding and the strict UTF-8 decoder used by the standard
  library String conversion from bytes.

Bytes are modelled as natural numbers below 256; 32-bit machine words
are natural numbers reduced modulo 2 ^ 32 at every operation. The
wall-clock timestamp the signing algorithm captures is modelled as an
explicit Timestamp argument; all other steps are pure in the source.
-/

/-- Lowercase an ASCII uppercase letter, leave every other character
unchanged. The signing library lowercases header names on insertion;
on the ASCII header names occurring in this program this agrees with
full Unicode lowercasing. -/
def asciiLowerChar (c : Char) : Char :=
  if 65 ≤ c.toNat ∧ c.toNat ≤ 90 then Char.ofNat (c.toNat + 32) else c

/-- ASCII lowercasing of a string, character by character. -/
def asciiLowerString (s : String) : String :=
  ⟨s.data.map asciiLowerChar⟩

/-- UTF-8 encoding of a single unicode scalar value. -/
def utf8EncodeChar (c : Char) : List Nat :=
  let n := c.toNat
  if n < 128 then [n]
  else if n < 2048 then [192 + n / 64, 128 + n % 64]
  else if n < 65536 then [224 + n / 4096, 128 + (n / 64) % 64, 128 + n % 64]
  else [240 + n / 262144, 128 + (n / 4096) % 64, 128 + (n / 64) % 64, 128 + n % 64]

/-- UTF-8 encoding of a string (the byte content Rust exposes through
String.as_bytes and String.into_bytes). -/
def utf8Encode (s : String) : List Nat :=
  s.data.foldr (fun c acc => utf8EncodeChar c ++ acc) []

/-- A UTF-8 continuation byte. -/
def isCont (b : Nat) : Bool :=
  decide (128 ≤ b ∧ b ≤ 191)

/-- Strict UTF-8 decoding of a byte list, rejecting overlong forms,
surrogate code points and out-of-range sequences, as the Rust standard
library conversion from bytes to String does. -/
def utf8DecodeList : List Nat → Option (List Char)
  | [] => some []
  | b :: rest =>
    if b < 128 then (utf8DecodeList rest).map (Char.ofNat b :: ·)
    else
      match rest with
      | [] => none
      | b1 :: rest1 =>
        if 194 ≤ b ∧ b ≤ 223 then
          if isCont b1 then
            (utf8DecodeList rest1).map (Char.ofNat ((b - 192) * 64 + (b1 - 128)) :: ·)
          else none
        else
          match rest1 with
          | [] => none
          | b2 :: rest2 =>
            if ((b = 224 ∧ 160 ≤ b1 ∧ b1 ≤ 191) ∨
                (225 ≤ b ∧ b ≤ 236 ∧ isCont b1 = true) ∨
                (b = 237 ∧ 128 ≤ b1 ∧ b1 ≤ 159) ∨
                (238 ≤ b ∧ b ≤ 239 ∧ isCont b1 = true)) ∧ isCont b2 = true then
              (utf8DecodeList rest2).map
                (Char.ofNat ((b - 224) * 4096 + (b1 - 128) * 64 + (b2 - 128)) :: ·)
            else
              match rest2 with
              | [] => none
              | b3 :: rest3 =>
                if ((b = 240 ∧ 144 ≤ b1 ∧ b1 ≤ 191) ∨
                    (241 ≤ b ∧ b ≤ 243 ∧ isCont b1 = true) ∨
                    (b = 244 ∧ 128 ≤ b1 ∧ b1 ≤ 143)) ∧
                    isCont b2 = true ∧ isCont b3 = true then
                  (utf8DecodeList rest3).map
                    (Char.ofNat ((b - 240) * 262144 + (b1 - 128) * 4096 +
                      (b2 - 128) * 64 + (b3 - 128)) :: ·)
                else none

/-- Model of the Rust standard library conversion String::from_utf8:
some string on valid UTF-8 input, none when the bytes are not valid
UTF-8 (the Err case of the Rust Result). -/
def from_utf8 (bytes : List Nat) : Option String :=
  (utf8DecodeList bytes).map (fun cs => ⟨cs⟩)

/-- The standard base64 alphabet. -/
def base64Alphabet : List Char :=
  "ABCDEFGHIJKLMNOPQRSTUVWXYZabcdefghijklmnopqrstuvwxyz0123456789+/".data

/-- Character for a 6-bit group. -/
def b64Char (n : Nat) : Char := base64Alphabet.getD n 'A'

/-- Standard base64 encoding with padding, as the base64 crate encode
function used at lines 83 to 85 of the source produces. -/
def base64Encode : List Nat → String
  | [] => ""
  | [a] => ⟨[b64Char (a / 4), b64Char ((a % 4) * 16), '=', '=']⟩
  | [a, b] => ⟨[b64Char (a / 4), b64Char ((a % 4) * 16 + b / 16), b64Char ((b % 16) * 4), '=']⟩
  | a :: b :: c :: rest =>
    (⟨[b64Char (a / 4), b64Char ((a % 4) * 16 + b / 16),
       b64Char ((b % 16) * 4 + c / 64), b64Char (c % 64)]⟩ : String) ++ base64Encode rest

/-- Value of a base64 alphabet character. -/
def b64Val (c : Char) : Option Nat :=
  if 65 ≤ c.toNat ∧ c.toNat ≤ 90 then some (c.toNat - 65)
  else if 97 ≤ c.toNat ∧ c.toNat ≤ 122 then some (c.toNat - 97 + 26)
  else if 48 ≤ c.toNat ∧ c.toNat ≤ 57 then some (c.toNat - 48 + 52)
  else if c = '+' then some 62
  else if c = '/' then some 63
  else none

/-- Standard base64 decoding with padding; none on any input that is
not a well-formed base64 string. -/
def base64DecodeChars : List Char → Option (List Nat)
  | [] => some []
  | [c0, c1, '=', '='] =>
    match b64Val c0, b64Val c1 with
    | some v0, some v1 => some [v0 * 4 + v1 / 16]
    | _, _ => none
  | [c0, c1, c2, '='] =>
    match b64Val c0, b64Val c1, b64Val c2 with
    | some v0, some v1, some v2 => some [v0 * 4 + v1 / 16, (v1 % 16) * 16 + v2 / 4]
    | _, _, _ => none
  | c0 :: c1 :: c2 :: c3 :: rest =>
    match b64Val c0, b64Val c1, b64Val c2, b64Val c3, base64DecodeChars rest with
    | some v0, some v1, some v2, some v3, some bs =>
      some ([v0 * 4 + v1 / 16, (v1 % 16) * 16 + v2 / 4, (v2 % 4) * 64 + v3] ++ bs)
    | _, _, _, _, _ => none
  | _ => none

/-- Base64 decoding of a string. -/
def base64Decode (s : String) : Option (List Nat) :=
  base64DecodeChars s.data

/-- Lowercase hexadecimal digit. -/
def hexDigit (n : Nat) : Char := "0123456789abcdef".data.getD n '0'

/-- Lowercase hexadecimal rendering of a byte list, as the signing
library hex digest helper produces. -/
def hexOfBytes (bs : List Nat) : String :=
  ⟨bs.foldr (fun b acc => hexDigit (b / 16) :: hexDigit (b % 16) :: acc) []⟩

/-- Reduction modulo 2 ^ 32, the 32-bit machine arithmetic of the hash. -/
def w32 (x : Nat) : Nat := x % 4294967296

/-- 32-bit right rotation. -/
def rotr32 (n x : Nat) : Nat := w32 ((x >>> n) ||| (x <<< (32 - n)))

/-- SHA-256 big sigma 0. -/
def bSig0 (x : Nat) : Nat := rotr32 2 x ^^^ rotr32 13 x ^^^ rotr32 22 x

/-- SHA-256 big sigma 1. -/
def bSig1 (x : Nat) : Nat := rotr32 6 x ^^^ rotr32 11 x ^^^ rotr32 25 x

/-- SHA-256 small sigma 0. -/
def sSig0 (x : Nat) : Nat := rotr32 7 x ^^^ rotr32 18 x ^^^ (x >>> 3)

/-- SHA-256 small sigma 1. -/
def sSig1 (x : Nat) : Nat := rotr32 17 x ^^^ rotr32 19 x ^^^ (x >>> 10)

/-- SHA-256 round constants, in decimal. -/
def sha256K : List Nat :=
  [1116352408, 1899447441, 3049323471, 3921009573, 961987163, 1508970993,
   2453635748, 2870763221, 3624381080, 310598401, 607225278, 1426881987,
   1925078388, 2162078206, 2614888103, 3248222580, 3835390401, 4022224774,
   264347078, 604807628, 770255983, 1249150122, 1555081692, 1996064986,
   2554220882, 2821834349, 2952996808, 3210313671, 3336571891, 3584528711,
   113926993, 338241895, 666307205, 773529912, 1294757372, 1396182291,
   1695183700, 1986661051, 2177026350, 2456956037, 2730485921, 2820302411,
   3259730800, 3345764771, 3516065817, 3600352804, 4094571909, 275423344,
   430227734, 506948616, 659060556, 883997877, 958139571, 1322822218,
   1537002063, 1747873779, 1955562222, 2024104815, 2227730452, 2361852424,
   2428436474, 2756734187, 3204031479, 3329325298]

/-- SHA-256 initial hash value, in decimal. -/
def sha256H0 : List Nat :=
  [1779033703, 3144134277, 1013904242, 2773480762,
   1359893119, 2600822924, 528734635, 1541459225]

/-- Big-endian byte rendering of a number on a fixed width. -/
def toBytesBE : Nat → Nat → List Nat
  | 0, _ => []
  | n + 1, x => x / 256 ^ n % 256 :: toBytesBE n x

/-- SHA-256 message padding: append the 1 bit, zeros and the 64-bit
big-endian bit length up to a multiple of 64 bytes. -/
def sha256Pad (msg : List Nat) : List Nat :=
  msg ++ 128 :: List.replicate ((119 - msg.length % 64) % 64) 0 ++ toBytesBE 8 (8 * msg.length)

/-- Split a byte list into 64-byte blocks. -/
def toBlocks : List Nat → List (List Nat)
  | [] => []
  | a :: rest => ((a :: rest).take 64) :: toBlocks ((a :: rest).drop 64)
  termination_by l => l.length
  decreasing_by simp [List.length_drop]; omega

/-- Big-endian 32-bit words of a block. -/
def beWords : List Nat → List Nat
  | b0 :: b1 :: b2 :: b3 :: rest => (((b0 * 256 + b1) * 256 + b2) * 256 + b3) :: beWords rest
  | _ => []

/-- Extend the 16 block words to the 64-entry message schedule. -/
def sha256Schedule (w16 : Array Nat) : Array Nat :=
  Nat.fold
    (fun j acc => acc.push (w32 (acc.getD j 0 + sSig0 (acc.getD (j + 1) 0) +
      acc.getD (j + 9) 0 + sSig1 (acc.getD (j + 14) 0))))
    48 w16

/-- One SHA-256 compression round on the eight-word state. -/
def sha256Round (s : List Nat) (kw : Nat × Nat) : List Nat :=
  match s with
  | [a, b, c, d, e, f, g, h] =>
    let ch := (e &&& f) ^^^ ((e ^^^ 4294967295) &&& g)
    let maj := (a &&& b) ^^^ (a &&& c) ^^^ (b &&& c)
    let t1 := w32 (h + bSig1 e + ch + kw.1 + kw.2)
    let t2 := w32 (bSig0 a + maj)
    [w32 (t1 + t2), a, b, c, w32 (d + t1), e, f, g]
  | other => other

/-- SHA-256 compression of one 64-byte block into the running hash. -/
def sha256Compress (hs : List Nat) (block : List Nat) : List Nat :=
  let w := sha256Schedule (beWords block).toArray
  let s := (sha256K.zip w.toList).foldl sha256Round hs
  List.zipWith (fun a b => w32 (a + b)) hs s

/-- SHA-256 digest of a byte list, as 32 bytes. -/
def sha256 (msg : List Nat) : List Nat :=
  ((toBlocks (sha256Pad msg)).foldl sha256Compress sha256H0).foldr
    (fun word acc => toBytesBE 4 word ++ acc) []

/-- HMAC-SHA256 with byte-list key and message. -/
def hmacSha256 (key msg : List Nat) : List Nat :=
  let k0 := if 64 < key.length then sha256 key else key
  let k := k0 ++ List.replicate (64 - k0.length) 0
  sha256 (k.map (· ^^^ 92) ++ sha256 (k.map (· ^^^ 54) ++ msg))

/-- The region the source fixes: Region::UsEast1. -/
inductive Region where
  | usEast1
deriving DecidableEq

/-- The region identifier used in signing scope and hostnames. -/
def Region.rname : Region → String
  | .usEast1 => "us-east-1"

/-- Resolved credentials, as the provider chain returns them:
access key, secret key and an optional session token. -/
structure AwsCredentials where
  aws_access_key_id : String
  aws_secret_access_key : String
  token : Option String

/-- Failure of the credential provider chain (no provider could supply
usable credentials, or a provider itself failed). -/
structure CredentialsError where
  message : String

/-- The wall-clock instant the signing algorithm captures internally.
The source takes no caller-supplied timestamp; signing reads the clock
once, here made an explicit argument of the embedding. -/
structure Timestamp where
  year : Nat
  month : Nat
  day : Nat
  hour : Nat
  minute : Nat
  second : Nat

/-- Two-digit zero-padded decimal. -/
def pad2 (n : Nat) : String := if n < 10 then "0" ++ toString n else toString n

/-- Four-digit zero-padded decimal. -/
def pad4 (n : Nat) : String :=
  if n < 10 then "000" ++ toString n
  else if n < 100 then "00" ++ toString n
  else if n < 1000 then "0" ++ toString n
  else toString n

/-- The date stamp used in the credential scope. -/
def Timestamp.dateStamp (t : Timestamp) : String :=
  pad4 t.year ++ pad2 t.month ++ pad2 t.day

/-- The basic ISO-8601 instant placed in the x-amz-date header. -/
def Timestamp.iso8601basic (t : Timestamp) : String :=
  t.dateStamp ++ "T" ++ pad2 t.hour ++ pad2 t.minute ++ pad2 t.second ++ "Z"

/-- Lexicographic order on character lists by code point. On UTF-8
encoded text this coincides with the byte-wise order Rust uses for
String keys in its ordered maps, because UTF-8 preserves code point
order. -/
def charsLt : List Char → List Char → Bool
  | [], [] => false
  | [], _ :: _ => true
  | _ :: _, [] => false
  | a :: as, b :: bs =>
    if a.toNat < b.toNat then true
    else if b.toNat < a.toNat then false
    else charsLt as bs

/-- Strict order on strings, byte-wise as in the Rust ordered maps. -/
def strLt (a b : String) : Bool := charsLt a.data b.data

/-- Append a value to the entry of a header name in the sorted header
map, inserting the name if absent: the entry-or-default-push step of
the signing library add_header on its ordered map. -/
def headersInsert (k : String) (v : String) :
    List (String × List String) → List (String × List String)
  | [] => [(k, [v])]
  | (k0, vs) :: rest =>
    if k == k0 then (k0, vs ++ [v]) :: rest
    else if strLt k k0 then (k, [v]) :: (k0, vs) :: rest
    else (k0, vs) :: headersInsert k v rest

/-- Insert or replace a key in the sorted parameter map. -/
def paramsInsert (k : String) (v : Option String) :
    List (String × Option String) → List (String × Option String)
  | [] => [(k, v)]
  | (k0, v0) :: rest =>
    if k == k0 then (k, v) :: rest
    else if strLt k k0 then (k, v) :: (k0, v0) :: rest
    else (k0, v0) :: paramsInsert k v rest

/-- The signing library request value: method, service, region, path,
the ordered header map (values in insertion order), the ordered
parameter map, optional scheme and hostname overrides, the payload
buffer and content type, and the canonical query string the signing
step fills in. -/
structure SignedRequest where
  method : String
  service : String
  region : Region
  path : String
  headers : List (String × List String)
  params : List (String × Option String)
  scheme : Option String
  hostname : Option String
  payload : Option String
  content_type : Option String
  canonical_query_string : String

/-- Constructor of the signing library request: empty header and
parameter maps, no scheme, hostname, payload or content type. -/
def SignedRequest.new (method service : String) (region : Region) (path : String) :
    SignedRequest :=
  ⟨method, service, region, path, [], [], none, none, none, none, ""⟩

/-- The add_header operation of the signing library: the header name
is lowercased on insertion and the value appended to the entry of that
name. -/
def SignedRequest.add_header (req : SignedRequest) (key value : String) : SignedRequest :=
  { req with headers := headersInsert (asciiLowerString key) value req.headers }

/-- The remove_header operation of the signing library: removes the
entry of the lowercased name. -/
def SignedRequest.remove_header (req : SignedRequest) (key : String) : SignedRequest :=
  { req with headers := req.headers.filter (fun kv => kv.1 != asciiLowerString key) }

/-- The set_payload operation: stores the byte buffer of the request
body (here the string whose UTF-8 bytes form the body). -/
def SignedRequest.set_payload (req : SignedRequest) (p : Option String) : SignedRequest :=
  { req with payload := p }

/-- The set_content_type operation. -/
def SignedRequest.set_content_type (req : SignedRequest) (ct : String) : SignedRequest :=
  { req with content_type := ct }

/-- Modelled from the spec: the dependency manifest (Cargo.toml and
Cargo.lock) pinning the signing library version is absent from src/,
so the hostname that library derives for the service string sts is
not determined by the sources available here; per the spec (section 3
invariant together with section 4.2 step 7) the signed request
targets the identity endpoint https://sts.amazonaws.com/, so the
hostname of the sts service is modelled as sts.amazonaws.com. Other
services follow the generic regional scheme of the library. -/
def build_hostname (service : String) (region : Region) : String :=
  if service == "sts" then "sts.amazonaws.com"
  else service ++ "." ++ region.rname ++ ".amazonaws.com"

/-- Hostname of the request: the override when set, otherwise derived
from service and region. -/
def SignedRequest.hostnameOrDefault (req : SignedRequest) : String :=
  req.hostname.getD (build_hostname req.service req.region)

/-- Scheme of the request: https for ordinary regions. -/
def SignedRequest.schemeOrDefault (req : SignedRequest) : String :=
  req.scheme.getD "https"

/-- The full URL of the request, as the dispatcher builds it:
scheme, separator, hostname and path. -/
def request_url (req : SignedRequest) : String :=
  req.schemeOrDefault ++ "://" ++ req.hostnameOrDefault ++ req.path

/-- Unreserved URI byte: alphanumeric or hyphen, dot, underscore,
tilde. -/
def isUnreserved (b : Nat) : Bool :=
  decide ((48 ≤ b ∧ b ≤ 57) ∨ (65 ≤ b ∧ b ≤ 90) ∨ (97 ≤ b ∧ b ≤ 122) ∨
    b = 45 ∨ b = 46 ∨ b = 95 ∨ b = 126)

/-- Uppercase hexadecimal digit. -/
def hexDigitUpper (n : Nat) : Char := "0123456789ABCDEF".data.getD n '0'

/-- Percent-escape of one byte. -/
def percentEncodeByte (b : Nat) : List Char :=
  ['%', hexDigitUpper (b / 16), hexDigitUpper (b % 16)]

/-- URI path encoding of the signing library: every byte but the
unreserved set and the path separator is percent-escaped. -/
def encode_uri_path (s : String) : String :=
  ⟨(utf8Encode s).foldr
    (fun b acc => if isUnreserved b || b == 47 then Char.ofNat b :: acc
      else percentEncodeByte b ++ acc) []⟩

/-- Strict URI encoding of the signing library: every byte but the
unreserved set is percent-escaped. -/
def encode_uri_strict (s : String) : String :=
  ⟨(utf8Encode s).foldr
    (fun b acc => if isUnreserved b then Char.ofNat b :: acc
      else percentEncodeByte b ++ acc) []⟩

/-- Canonical URI of the signing algorithm; an empty path becomes the
root path. -/
def canonical_uri (path : String) : String :=
  if path = "" then "/" else encode_uri_path path

/-- Canonical query string of the signing algorithm over the sorted
parameter map. The source never sets parameters on the request, so in
this program it is always the empty string. -/
def build_canonical_query_string (params : List (String × Option String)) : String :=
  String.intercalate "&"
    (params.map (fun kv => encode_uri_strict kv.1 ++ "=" ++ encode_uri_strict (kv.2.getD "")))

/-- Headers the signing library leaves out of the canonical request:
authorization, content-length, content-type and user-agent. -/
def skippedHeader (h : String) : Bool :=
  h == "authorization" || h == "content-length" || h == "content-type" || h == "user-agent"

/-- Drop leading and trailing space characters. -/
def trimSpaces (s : String) : String :=
  ⟨((s.data.dropWhile (· = ' ')).reverse.dropWhile (· = ' ')).reverse⟩

/-- Canonical rendering of the value list of one header: values joined
by commas, each trimmed of spaces unless it is a quoted value. -/
def canonical_values (vs : List String) : String :=
  String.intercalate ","
    (vs.map (fun v => if v.data.head? = some '\"' then v else trimSpaces v))

/-- Canonical headers block of the signing algorithm: every non-skipped
header of the ordered map as name, colon, canonical values, newline. -/
def canonical_headers (hs : List (String × List String)) : String :=
  hs.foldl
    (fun acc kv => if skippedHeader kv.1 then acc
      else acc ++ kv.1 ++ ":" ++ canonical_values kv.2 ++ "\n") ""

/-- Signed-headers list of the signing algorithm: the non-skipped
header names joined by semicolons. -/
def signed_headers_string (hs : List (String × List String)) : String :=
  String.intercalate ";" ((hs.filter (fun kv => !skippedHeader kv.1)).map Prod.fst)

/-- Hex digest of the payload buffer (the empty buffer when none). -/
def SignedRequest.payloadDigest (req : SignedRequest) : String :=
  hexOfBytes (sha256 (utf8Encode (req.payload.getD "")))

/-- The string-to-sign of the version 4 algorithm. -/
def string_to_sign (t : Timestamp) (hashedCanonicalRequest scope : String) : String :=
  "AWS4-HMAC-SHA256\n" ++ t.iso8601basic ++ "\n" ++ scope ++ "\n" ++ hashedCanonicalRequest

/-- The HMAC chain of the version 4 algorithm: the derived signing key
from secret, date, region and service, applied to the string-to-sign,
rendered as lowercase hex. -/
def sign_string (stringToSign secret dateStamp region service : String) : String :=
  let dateHmac := hmacSha256 (utf8Encode ("AWS4" ++ secret)) (utf8Encode dateStamp)
  let regionHmac := hmacSha256 dateHmac (utf8Encode region)
  let serviceHmac := hmacSha256 regionHmac (utf8Encode service)
  let signingHmac := hmacSha256 serviceHmac (utf8Encode "aws4_request")
  hexOfBytes (hmacSha256 signingHmac (utf8Encode stringToSign))

/-- The sign operation of the signing library: fills in x-amz-date
from the captured clock instant, the session token header when a
token is present, the payload digest header, the host header derived
from service and region, a content-type header when none is set,
then computes the canonical request, the string-to-sign, the
signature, and stores the authorization header. Every header is
inserted through add_header, hence under a lowercased name. -/
def SignedRequest.sign (req : SignedRequest) (creds : AwsCredentials) (now : Timestamp) :
    SignedRequest :=
  let r := (req.remove_header "x-amz-date").add_header "x-amz-date" now.iso8601basic
  let r := match creds.token with
    | some t => (r.remove_header "x-amz-security-token").add_header "x-amz-security-token" t
    | none => r
  let r := { r with canonical_query_string := build_canonical_query_string r.params }
  let digest := r.payloadDigest
  let r := (r.remove_header "x-amz-content-sha256").add_header "x-amz-content-sha256" digest
  let hostname := r.hostnameOrDefault
  let r := { r with hostname := some hostname }
  let r := (r.remove_header "host").add_header "host" hostname
  let r := if (List.lookup "content-type" r.headers).isNone then
      r.add_header "content-type" (r.content_type.getD "application/octet-stream")
    else r
  let canonicalHeaders := canonical_headers r.headers
  let signedHeaders := signed_headers_string r.headers
  let canonicalRequest := r.method ++ "\n" ++ canonical_uri r.path ++ "\n" ++
    r.canonical_query_string ++ "\n" ++ canonicalHeaders ++ "\n" ++ signedHeaders ++ "\n" ++ digest
  let hashedCR := hexOfBytes (sha256 (utf8Encode canonicalRequest))
  let scope := now.dateStamp ++ "/" ++ r.region.rname ++ "/" ++ r.service ++ "/aws4_request"
  let signature := sign_string (string_to_sign now hashedCR scope)
    creds.aws_secret_access_key now.dateStamp r.region.rname r.service
  let authHeader := "AWS4-HMAC-SHA256 Credential=" ++ creds.aws_access_key_id ++ "/" ++ scope ++
    ", SignedHeaders=" ++ signedHeaders ++ ", Signature=" ++ signature
  (r.remove_header "authorization").add_header "authorization" authHeader

/-- The authentication options passed into the main auth function
(struct Parameters, lines 12 to 22 of the source). -/
structure Parameters where
  iam_server_id : Option String
  mount_path : String
  role : String
  vault_address : String

/-- The fragment of the serde_json value space this program uses:
strings, arrays and objects (an object is its ordered field list). -/
inductive Json where
  | str (s : String)
  | arr (xs : List Json)
  | obj (fields : List (String × Json))

/-- Transport-level failure of the outbound HTTP exchange. -/
structure TransportError where
  message : String

/-- The error channel of the crate. The source erases error types into
a boxed dynamic error; the variants record which call the boxed error
came from: the credential provider chain, a serializer, or the HTTP
transport. -/
inductive AuthError where
  | credentials (e : CredentialsError)
  | serialization (message : String)
  | transport (e : TransportError)

/-- Byte safe in the form-urlencoded encoding: alphanumeric or one of
asterisk, hyphen, dot, underscore. -/
def formByteSafe (b : Nat) : Bool :=
  decide ((48 ≤ b ∧ b ≤ 57) ∨ (65 ≤ b ∧ b ≤ 90) ∨ (97 ≤ b ∧ b ≤ 122) ∨
    b = 42 ∨ b = 45 ∨ b = 46 ∨ b = 95)

/-- Form-urlencoded escaping of a string: safe bytes pass through,
space becomes plus, every other byte is percent-escaped. -/
def formUrlencodeStr (s : String) : String :=
  ⟨(utf8Encode s).foldr
    (fun b acc =>
      if formByteSafe b then Char.ofNat b :: acc
      else if b = 32 then '+' :: acc
      else percentEncodeByte b ++ acc) []⟩

/-- The serde_urlencoded serialization of the sorted parameter map
(line 63 of the source): key equals value pairs joined by ampersands,
in map order. The source only ever stores present values, so the none
case never occurs and is rendered as an empty value. -/
def serde_urlencoded_to_string (params : List (String × Option String)) : String :=
  String.intercalate "&"
    (params.map (fun kv => formUrlencodeStr kv.1 ++ "=" ++ formUrlencodeStr (kv.2.getD "")))

/-- Params::new (line 59): the empty sorted parameter map. -/
def params_new : List (String × Option String) := []

/-- ServiceParams::put (lines 60 to 61): insert a present value under
a key. -/
def params_put (ps : List (String × Option String)) (k v : String) :
    List (String × Option String) :=
  paramsInsert k (some v) ps

/-- JSON string escaping as the serde_json serializer performs it:
quote and backslash escaped, control characters by short escapes or
the four-digit unicode form. -/
def jsonEscapeChar (c : Char) : List Char :=
  if c = '\"' then ['\\', '\"']
  else if c = '\\' then ['\\', '\\']
  else if c.toNat < 32 then
    match c.toNat with
    | 8 => ['\\', 'b']
    | 9 => ['\\', 't']
    | 10 => ['\\', 'n']
    | 12 => ['\\', 'f']
    | 13 => ['\\', 'r']
    | n => ['\\', 'u', '0', '0', hexDigit (n / 16), hexDigit (n % 16)]
  else [c]

/-- A JSON string literal. -/
def jsonString (s : String) : String :=
  "\"" ++ (⟨s.data.foldr (fun c acc => jsonEscapeChar c ++ acc) []⟩ : String) ++ "\""

/-- The serde_json serialization of the header map (line 78 of the
source): a compact JSON object mapping each header name to the array
of its values. The source serializes a hash map whose iteration order
is unspecified; the entries are modelled in the sorted order the map
was collected from, one representative of the possible orders, and no
claim below depends on entry order. -/
def serializeHeadersJson (hs : List (String × List String)) : String :=
  "\x7b" ++ String.intercalate ","
      (hs.map (fun kv => jsonString kv.1 ++ ":[" ++
        String.intercalate "," (kv.2.map jsonString) ++ "]")) ++ "\x7d"

/-- The signed request the source builds at lines 52 to 67: a POST to
the sts service in region us-east-1 at the root path, the optional
Vault server id header added before signing, the form body of the two
fixed parameters as payload, the form content type, signed with the
resolved credentials at the captured clock instant. -/
def signed_sts_request (iam_server_id : Option String) (credentials : AwsCredentials)
    (now : Timestamp) : SignedRequest :=
  let req := SignedRequest.new "POST" "sts" Region.usEast1 "/"
  let req := match iam_server_id with
    | some id => req.add_header "X-Vault-AWS-IAM-Server-ID" id
    | none => req
  let ps := params_put (params_put params_new "Action" "GetCallerIdentity")
    "Version" "2011-06-15"
  let req := req.set_payload (some (serde_urlencoded_to_string ps))
  let req := req.set_content_type "application/x-www-form-urlencoded"
  req.sign credentials now

/-- The header map the source collects at lines 69 to 77: every header
of the signed request, keys unchanged, each value decoded back from
its UTF-8 bytes. On the string level decoding the bytes of a string
returns that string, so the collected map is the header map of the
signed request; the byte-level decoding step with its panicking
unwrap is modelled separately by collect_signed_headers. The source
collects into a hash map, which changes iteration order but not the
key-value set; the sorted order is kept as representative. -/
def signed_headers_map (iam_server_id : Option String) (credentials : AwsCredentials)
    (now : Timestamp) : List (String × List String) :=
  (signed_sts_request iam_server_id credentials now).headers

/-- new_iam_payload (lines 47 to 88): resolve credentials (failure is
propagated immediately), build and sign the request, serialize the
collected header map, and assemble the payload object with the five
fixed fields. The credential resolution result and the captured clock
instant are explicit arguments of the embedding. -/
def new_iam_payload (credRes : Except CredentialsError AwsCredentials) (now : Timestamp)
    (role : String) (iam_server_id : Option String) : Except AuthError Json :=
  match credRes with
  | .error e => .error (.credentials e)
  | .ok credentials =>
    let signed_headers := serializeHeadersJson (signed_headers_map iam_server_id credentials now)
    .ok (.obj [
      ("iam_http_request_method", .str "POST"),
      ("iam_request_url", .str (base64Encode (utf8Encode "https://sts.amazonaws.com/"))),
      ("iam_request_headers", .str (base64Encode (utf8Encode signed_headers))),
      ("iam_request_body", .str (base64Encode (utf8Encode "Action=GetCallerIdentity&Version=2011-06-15"))),
      ("role", .str role)])

/-- One outbound HTTP request of the orchestrator: method, target URL,
accept header and JSON body. -/
structure HttpRequest where
  method : String
  url : String
  accept : String
  body : Json

/-- The target URL built at lines 29 to 32: the vault address, the
fixed login path prefix, the mount path and the login suffix, with no
escaping of either part. -/
def login_url (params : Parameters) : String :=
  params.vault_address ++ "/v1/auth/" ++ params.mount_path ++ "/login"

/-- authenticate (lines 27 to 43): build the payload (propagating its
errors before any network activity), then issue one POST with the
JSON payload to the login URL and return the JSON response verbatim.
The transport is an explicit argument; the second component of the
result lists the requests actually handed to the transport, so that
the number of HTTP calls is part of the observable behaviour. -/
def authenticate (credRes : Except CredentialsError AwsCredentials) (now : Timestamp)
    (transport : HttpRequest → Except TransportError Json) (params : Parameters) :
    Except AuthError Json × List HttpRequest :=
  match new_iam_payload credRes now params.role params.iam_server_id with
  | .error e => (.error e, [])
  | .ok payload =>
    let req : HttpRequest := ⟨"POST", login_url params, "application/json", payload⟩
    ((transport req).mapError AuthError.transport, [req])

/-- Byte-level model of the value conversion inside the header loop
(lines 72 to 75): each raw value is converted by String::from_utf8
followed by unwrap. The unwrap panics on the first value that is not
valid UTF-8, aborting the computation; the none outcome models that
panic. There is no error-return path in this block. -/
def collect_header_values : List (List Nat) → Option (List String)
  | [] => some []
  | v :: rest =>
    match from_utf8 v with
    | none => none
    | some s => (collect_header_values rest).map (s :: ·)

/-- Byte-level model of the whole header-collection block (lines 69 to
77) over an arbitrary header map with raw byte values: every value of
every header is UTF-8 decoded and unwrapped; the none outcome models
the panic of unwrap on a value that is not valid UTF-8. -/
def collect_signed_headers : List (String × List (List Nat)) → Option (List (String × List String))
  | [] => some []
  | (k, vs) :: rest =>
    match collect_header_values vs with
    | none => none
    | some ss => (collect_signed_headers rest).map ((k, ss) :: ·)

/-- Claim C1: for every role string and every optional iam_server_id
(and every resolved credentials value and captured clock instant), the
payload returned by new_iam_payload is a JSON object with exactly the
keys iam_http_request_method, iam_request_url, iam_request_headers,
iam_request_body and role, and the value of iam_http_request_method is
the literal string POST. -/
theorem new_iam_payload_has_exact_keys_and_post_method
    (credentials : AwsCredentials) (now : Timestamp) (role : String)
    (iam_server_id : Option String) :
    ∃ fields, new_iam_payload (.ok credentials) now role iam_server_id = .ok (.obj fields) ∧
      fields.map Prod.fst = ["iam_http_request_method", "iam_request_url",
        "iam_request_headers", "iam_request_body", "role"] ∧
      List.lookup "iam_http_request_method" fields = some (.str "POST") :=
  ⟨_, rfl, rfl, rfl⟩

/-- Claim C2: for every input, base64-decoding the iam_request_url
field of the payload yields exactly the bytes of
https://sts.amazonaws.com/ and base64-decoding the iam_request_body
field yields exactly the bytes of
Action=GetCallerIdentity&Version=2011-06-15. -/
theorem iam_request_url_and_body_decode_to_fixed_bytes
    (credentials : AwsCredentials) (now : Timestamp) (role : String)
    (iam_server_id : Option String) :
    ∃ fields u b, new_iam_payload (.ok credentials) now role iam_server_id = .ok (.obj fields) ∧
      List.lookup "iam_request_url" fields = some (.str u) ∧
      base64Decode u = some (utf8Encode "https://sts.amazonaws.com/") ∧
      List.lookup "iam_request_body" fields = some (.str b) ∧
      base64Decode b = some (utf8Encode "Action=GetCallerIdentity&Version=2011-06-15") :=
  ⟨_, _, _, rfl, rfl, rfl, rfl, rfl⟩

/-- Claim C3: the bytes fed into the signing step match byte-for-byte
the bytes later base64-encoded into the payload: the serde_urlencoded
serialization of the parameter map handed to set_payload is exactly
Action=GetCallerIdentity&Version=2011-06-15, which is also what the
iam_request_body field decodes to; the signed request carries the
method POST encoded as iam_http_request_method; and the URL of the
signed request is https://sts.amazonaws.com/, exactly the bytes the
iam_request_url field decodes to. -/
theorem signing_inputs_match_encoded_payload_bytes
    (credentials : AwsCredentials) (now : Timestamp) (role : String)
    (iam_server_id : Option String) :
    ∃ fields u b,
      new_iam_payload (.ok credentials) now role iam_server_id = .ok (.obj fields) ∧
      serde_urlencoded_to_string (params_put (params_put params_new "Action" "GetCallerIdentity")
        "Version" "2011-06-15") = "Action=GetCallerIdentity&Version=2011-06-15" ∧
      (signed_sts_request iam_server_id credentials now).payload =
        some "Action=GetCallerIdentity&Version=2011-06-15" ∧
      List.lookup "iam_request_body" fields = some (.str b) ∧
      base64Decode b = some (utf8Encode "Action=GetCallerIdentity&Version=2011-06-15") ∧
      (signed_sts_request iam_server_id credentials now).method = "POST" ∧
      List.lookup "iam_http_request_method" fields = some (.str "POST") ∧
      request_url (signed_sts_request iam_server_id credentials now) =
        "https://sts.amazonaws.com/" ∧
      List.lookup "iam_request_url" fields = some (.str u) ∧
      base64Decode u = some (utf8Encode "https://sts.amazonaws.com/") := by
  rcases credentials with ⟨a, s, tok⟩
  rcases iam_server_id with _ | id <;> rcases tok with _ | tok <;>
    exact ⟨_, _, _, rfl, rfl, rfl, rfl, rfl, rfl, rfl, rfl, rfl, rfl⟩

/-- Claim C4, counterexample: with iam_server_id set to
vault.example.com and concrete credentials and clock instant, the
header map collected from the signed request (the JSON object that
iam_request_headers base64-encodes) has no entry under the exact-case
key X-Vault-AWS-IAM-Server-ID; the value sits under the lowercased key
instead, so the claim as stated is false at this input. -/
theorem vault_header_key_is_lowercased_not_exact_case :
    List.lookup "X-Vault-AWS-IAM-Server-ID"
      (signed_headers_map (some "vault.example.com")
        ⟨"AKIDEXAMPLE", "SECRETKEY", none⟩ ⟨2024, 1, 1, 0, 0, 0⟩) = none ∧
    List.lookup "x-vault-aws-iam-server-id"
      (signed_headers_map (some "vault.example.com")
        ⟨"AKIDEXAMPLE", "SECRETKEY", none⟩ ⟨2024, 1, 1, 0, 0, 0⟩) =
      some ["vault.example.com"] :=
  ⟨rfl, rfl⟩

/-- Claim C4, amended: when iam_server_id is some vault.example.com,
the collected header map (the JSON object that iam_request_headers
base64-encodes) maps the lowercased key x-vault-aws-iam-server-id to
the single-element array of vault.example.com, the signing library
having lowercased the header name on insertion; when iam_server_id is
none, neither the lowercase key nor the original-case key is
present. -/
theorem vault_server_id_header_lowercase_present_or_absent
    (credentials : AwsCredentials) (now : Timestamp) :
    List.lookup "x-vault-aws-iam-server-id"
      (signed_headers_map (some "vault.example.com") credentials now) =
      some ["vault.example.com"] ∧
    List.lookup "x-vault-aws-iam-server-id" (signed_headers_map none credentials now) = none ∧
    List.lookup "X-Vault-AWS-IAM-Server-ID" (signed_headers_map none credentials now) = none := by
  rcases credentials with ⟨a, s, tok⟩
  rcases tok with _ | tok <;> exact ⟨rfl, rfl, rfl⟩

/-- Claim C5: the role field of the payload equals the input role
string unchanged, for every role string. -/
theorem role_field_equals_input_role
    (credentials : AwsCredentials) (now : Timestamp) (role : String)
    (iam_server_id : Option String) :
    ∃ fields, new_iam_payload (.ok credentials) now role iam_server_id = .ok (.obj fields) ∧
      List.lookup "role" fields = some (.str role) :=
  ⟨_, rfl, rfl⟩

/-- Claim C6: when credential resolution fails, authenticate returns
the propagated credentials error immediately and the transport is
invoked zero times, for every transport and every parameter value. -/
theorem authenticate_propagates_credentials_error_with_no_request
    (e : CredentialsError) (now : Timestamp)
    (transport : HttpRequest → Except TransportError Json) (params : Parameters) :
    authenticate (.error e) now transport params = (.error (.credentials e), []) :=
  rfl

/-- Claim C7: authenticate issues exactly one POST, whose target URL is
the vault address, then /v1/auth/, then the mount path, then /login,
with no escaping or modification of either part; in particular with
mount path aws and vault address https://vault.local:8200 the target
is https://vault.local:8200/v1/auth/aws/login. -/
theorem authenticate_posts_to_login_url
    (credentials : AwsCredentials) (now : Timestamp)
    (transport : HttpRequest → Except TransportError Json) (params : Parameters) :
    (authenticate (.ok credentials) now transport params).2.map
        (fun r => (r.method, r.url)) =
      [("POST", params.vault_address ++ "/v1/auth/" ++ params.mount_path ++ "/login")] ∧
    login_url ⟨none, "aws", "my-role", "https://vault.local:8200"⟩ =
      "https://vault.local:8200/v1/auth/aws/login" :=
  ⟨rfl, rfl⟩

/-- Helper for claim C8: if one value of the list is not valid UTF-8
the value conversion of the header loop reaches the panicking unwrap,
modelled as the none outcome. -/
theorem collect_header_values_eq_none_of_invalid (vs : List (List Nat)) (v : List Nat)
    (hv : v ∈ vs) (hdec : from_utf8 v = none) : collect_header_values vs = none := by
  induction vs with
  | nil => cases hv
  | cons w ws ih =>
    rcases List.mem_cons.mp hv with h | h
    · subst h
      simp only [collect_header_values, hdec]
    · simp only [collect_header_values]
      cases hw : from_utf8 w with
      | none => rfl
      | some s => rw [ih h]; rfl

/-- Claim C8, counterexample: at a header map carrying the single raw
value byte 255 (not valid UTF-8), the header-collection block of
new_iam_payload reaches the unwrap panic, modelled as the none
outcome; the block has no error-return path at all, so it cannot
produce a recoverable EncodingError as the claim states. -/
theorem header_collection_panics_on_invalid_utf8_value :
    collect_signed_headers [("x-test-header", [[255]])] = none :=
  rfl

/-- Claim C8, amended: during header extraction in new_iam_payload, if
some header value on the signed request is not valid UTF-8, the
extraction panics through the silent unwrap, aborting the computation
rather than failing with a recoverable error. -/
theorem collect_signed_headers_none_on_invalid_value
    (hs : List (String × List (List Nat))) (k : String) (vs : List (List Nat)) (v : List Nat)
    (hmem : (k, vs) ∈ hs) (hv : v ∈ vs) (hdec : from_utf8 v = none) :
    collect_signed_headers hs = none := by
  induction hs with
  | nil => cases hmem
  | cons p rest ih =>
    rcases List.mem_cons.mp hmem with h | h
    · subst h
      simp only [collect_signed_headers,
        collect_header_values_eq_none_of_invalid vs v hv hdec]
    · simp only [collect_signed_headers]
      cases hp : collect_header_values p.2 with
      | none => rfl
      | some ss => rw [ih h]; rfl

/-- Claim C8, witness for the amended theorem: the byte 255 alone is
not valid UTF-8 and the collection of a header map carrying it
panics. -/
theorem collect_signed_headers_none_on_invalid_value_witness :
    from_utf8 [255] = none ∧
      collect_signed_headers [("x-test-header", [[255]])] = none :=
  ⟨rfl, collect_signed_headers_none_on_invalid_value
    [("x-test-header", [[255]])] "x-test-header" [[255]] [255]
    (List.mem_singleton.mpr rfl) (List.mem_singleton.mpr rfl) rfl⟩

/-- Claim C9: signing is a deterministic function of the credentials,
the captured clock instant and the request: two signing runs over the
same canonical request (built from the same server id, credentials and
instant) produce identical authorization header values. The wall-clock
instant the source captures inside the signing call is the explicit
now argument of the embedding; every other step is pure. -/
theorem sign_authorization_deterministic
    (iam_server_id : Option String) (credentials : AwsCredentials) (now : Timestamp)
    (r1 r2 : SignedRequest)
    (h1 : r1 = signed_sts_request iam_server_id credentials now)
    (h2 : r2 = signed_sts_request iam_server_id credentials now) :
    List.lookup "authorization" r1.headers = List.lookup "authorization" r2.headers := by
  subst h1
  subst h2
  rfl

/-- Claim C9, witness: two signing runs at one concrete input. -/
theorem sign_authorization_deterministic_witness :
    List.lookup "authorization"
        (signed_sts_request none ⟨"AKIDEXAMPLE", "SECRETKEY", none⟩
          ⟨2024, 1, 2, 3, 4, 5⟩).headers =
      List.lookup "authorization"
        (signed_sts_request none ⟨"AKIDEXAMPLE", "SECRETKEY", none⟩
          ⟨2024, 1, 2, 3, 4, 5⟩).headers :=
  sign_authorization_deterministic none ⟨"AKIDEXAMPLE", "SECRETKEY", none⟩
    ⟨2024, 1, 2, 3, 4, 5⟩ _ _ rfl rfl

/-- Claim C10: every header name appearing as a key of the collected
header map (the JSON object base64-encoded into iam_request_headers)
is in lowercase ASCII form, because every header reaches the map
through the add_header insertion of the signing library, which
lowercases the name, or through the content-type default entry whose
name is already lowercase. -/
theorem header_names_all_lowercase
    (iam_server_id : Option String) (credentials : AwsCredentials) (now : Timestamp)
    (k : String) (hk : k ∈ (signed_headers_map iam_server_id credentials now).map Prod.fst) :
    asciiLowerString k = k := by
  rcases credentials with ⟨a, s, tok⟩
  rcases iam_server_id with _ | id <;> rcases tok with _ | tok
  · have h : (signed_headers_map none ⟨a, s, none⟩ now).map Prod.fst =
        ["authorization", "content-type", "host", "x-amz-content-sha256", "x-amz-date"] := rfl
    rw [h] at hk
    fin_cases hk <;> rfl
  · have h : (signed_headers_map none ⟨a, s, some tok⟩ now).map Prod.fst =
        ["authorization", "content-type", "host", "x-amz-content-sha256", "x-amz-date",
         "x-amz-security-token"] := rfl
    rw [h] at hk
    fin_cases hk <;> rfl
  · have h : (signed_headers_map (some id) ⟨a, s, none⟩ now).map Prod.fst =
        ["authorization", "content-type", "host", "x-amz-content-sha256", "x-amz-date",
         "x-vault-aws-iam-server-id"] := rfl
    rw [h] at hk
    fin_cases hk <;> rfl
  · have h : (signed_headers_map (some id) ⟨a, s, some tok⟩ now).map Prod.fst =
        ["authorization", "content-type", "host", "x-amz-content-sha256", "x-amz-date",
         "x-amz-security-token", "x-vault-aws-iam-server-id"] := rfl
    rw [h] at hk
    fin_cases hk <;> rfl

/-- Claim C10, witness: the authorization key of the collected map at a
concrete input is lowercase. -/
theorem header_names_all_lowercase_witness :
    asciiLowerString "authorization" = "authorization" :=
  header_names_all_lowercase none ⟨"AKIDEXAMPLE", "SECRETKEY", none⟩
    ⟨2024, 1, 1, 0, 0, 0⟩ "authorization" (by decide)
